import Mathlib

/-!
Shallow embedding of the sentinel-bot LLM routing core:
`src/sentinel/llm/base.py`, `src/sentinel/llm/registry.py`,
`src/sentinel/llm/cost_tracker.py` and `src/sentinel/llm/router.py`.

Monetary amounts (Python floats holding short decimals) are modelled as
rationals; timestamps are abstracted to their calendar day (a natural
number), which is the only part of a timestamp the code ever inspects.
The external provider adapters (`provider.complete`) are modelled as an
oracle from (provider, per-attempt config, task) to an optional response.
-/

set_option maxRecDepth 8000

attribute [local semireducible] Rat.add Rat.mul Rat.sub Rat.inv Rat.ofScientific

namespace Sentinel

/-- Provider families (`base.py`, enum `ProviderType`). -/
inductive ProviderType where
  | CLAUDE
  | OPENROUTER
  | LOCAL
deriving DecidableEq

/-- Response record (`base.py`, dataclass `LLMResponse`); the opaque
`metadata` and `tool_calls` payloads are irrelevant to routing and omitted. -/
structure LLMResponse where
  content : String
  model : String
  provider : ProviderType
  input_tokens : Nat
  output_tokens : Nat
  cost_usd : ℚ
deriving DecidableEq

/-- Call configuration (`base.py`, dataclass `LLMConfig`); `model` is
`Option String` because the router passes `None` for tier-based selection. -/
structure LLMConfig where
  model : Option String
  max_tokens : Nat
  temperature : ℚ
  system_prompt : Option String
deriving DecidableEq

/-- Task categories (`router.py`, enum `TaskType`). -/
inductive TaskType where
  | CHAT
  | REASONING
  | SIMPLE
  | BACKGROUND
  | SUMMARIZATION
  | TOOL_CALL
  | INTER_AGENT
  | FACT_EXTRACTION
  | IMPORTANCE_SCORING
deriving DecidableEq

/-- Difficulty map (`router.py`, `TASK_DIFFICULTY`). -/
def TASK_DIFFICULTY : TaskType → Nat
  | .CHAT => 3
  | .REASONING => 3
  | .FACT_EXTRACTION => 2
  | .SUMMARIZATION => 2
  | .BACKGROUND => 2
  | .SIMPLE => 1
  | .TOOL_CALL => 1
  | .INTER_AGENT => 1
  | .IMPORTANCE_SCORING => 1

/-- Catalog entry (`registry.py`, dataclass `ModelCapability`). -/
structure ModelCapability where
  model_id : String
  provider : ProviderType
  difficulty : Nat
  cost_per_1m_input : ℚ
  cost_per_1m_output : ℚ
  max_context : Nat
  avg_latency_ms : Nat
  quality_score : ℚ
  multimodal : Bool
  supports_tools : Bool
  notes : String
deriving DecidableEq

def claudeOpus4 : ModelCapability :=
  { model_id := "claude-opus-4-20250514", provider := .CLAUDE, difficulty := 3
    cost_per_1m_input := mkRat 15 1, cost_per_1m_output := mkRat 75 1
    max_context := 200000, avg_latency_ms := 3000, quality_score := mkRat 1 1
    multimodal := true, supports_tools := true, notes := "Best reasoning, highest cost" }

def claudeSonnet4 : ModelCapability :=
  { model_id := "claude-sonnet-4-20250514", provider := .CLAUDE, difficulty := 3
    cost_per_1m_input := mkRat 3 1, cost_per_1m_output := mkRat 15 1
    max_context := 200000, avg_latency_ms := 2000, quality_score := mkRat 95 100
    multimodal := true, supports_tools := true, notes := "Balanced quality/cost for complex tasks" }

def claudeHaiku35 : ModelCapability :=
  { model_id := "claude-haiku-3-5-20241022", provider := .CLAUDE, difficulty := 2
    cost_per_1m_input := mkRat 8 10, cost_per_1m_output := mkRat 4 1
    max_context := 200000, avg_latency_ms := 800, quality_score := mkRat 85 100
    multimodal := true, supports_tools := true, notes := "Fast, cheap, good for simple tasks" }

def orClaude35Sonnet : ModelCapability :=
  { model_id := "anthropic/claude-3.5-sonnet", provider := .OPENROUTER, difficulty := 3
    cost_per_1m_input := mkRat 3 1, cost_per_1m_output := mkRat 15 1
    max_context := 200000, avg_latency_ms := 2500, quality_score := mkRat 95 100
    multimodal := true, supports_tools := true, notes := "" }

def orGpt4Turbo : ModelCapability :=
  { model_id := "openai/gpt-4-turbo", provider := .OPENROUTER, difficulty := 3
    cost_per_1m_input := mkRat 10 1, cost_per_1m_output := mkRat 30 1
    max_context := 128000, avg_latency_ms := 2500, quality_score := mkRat 92 100
    multimodal := true, supports_tools := true, notes := "" }

def orGeminiPro15 : ModelCapability :=
  { model_id := "google/gemini-pro-1.5", provider := .OPENROUTER, difficulty := 2
    cost_per_1m_input := mkRat 125 100, cost_per_1m_output := mkRat 5 1
    max_context := 1000000, avg_latency_ms := 2000, quality_score := mkRat 85 100
    multimodal := true, supports_tools := true, notes := "Huge context window" }

def orClaude3Haiku : ModelCapability :=
  { model_id := "anthropic/claude-3-haiku", provider := .OPENROUTER, difficulty := 2
    cost_per_1m_input := mkRat 25 100, cost_per_1m_output := mkRat 125 100
    max_context := 200000, avg_latency_ms := 1000, quality_score := mkRat 8 10
    multimodal := true, supports_tools := true, notes := "" }

def orLlama70b : ModelCapability :=
  { model_id := "meta-llama/llama-3.1-70b-instruct", provider := .OPENROUTER, difficulty := 2
    cost_per_1m_input := mkRat 52 100, cost_per_1m_output := mkRat 75 100
    max_context := 128000, avg_latency_ms := 1500, quality_score := mkRat 75 100
    multimodal := false, supports_tools := true, notes := "" }

def orGpt4oMini : ModelCapability :=
  { model_id := "openai/gpt-4o-mini", provider := .OPENROUTER, difficulty := 1
    cost_per_1m_input := mkRat 15 100, cost_per_1m_output := mkRat 6 10
    max_context := 128000, avg_latency_ms := 1000, quality_score := mkRat 75 100
    multimodal := true, supports_tools := true, notes := "" }

def orGeminiFlash15 : ModelCapability :=
  { model_id := "google/gemini-flash-1.5", provider := .OPENROUTER, difficulty := 1
    cost_per_1m_input := mkRat 75 1000, cost_per_1m_output := mkRat 3 10
    max_context := 1000000, avg_latency_ms := 800, quality_score := mkRat 7 10
    multimodal := true, supports_tools := true, notes := "Very fast, huge context" }

def orLlama8b : ModelCapability :=
  { model_id := "meta-llama/llama-3.1-8b-instruct", provider := .OPENROUTER, difficulty := 1
    cost_per_1m_input := mkRat 5 100, cost_per_1m_output := mkRat 8 100
    max_context := 128000, avg_latency_ms := 600, quality_score := mkRat 65 100
    multimodal := false, supports_tools := true, notes := "" }

def orQwen72b : ModelCapability :=
  { model_id := "qwen/qwen-2.5-72b-instruct", provider := .OPENROUTER, difficulty := 1
    cost_per_1m_input := mkRat 35 100, cost_per_1m_output := mkRat 4 10
    max_context := 32768, avg_latency_ms := 1200, quality_score := mkRat 7 10
    multimodal := false, supports_tools := true, notes := "" }

def localModel : ModelCapability :=
  { model_id := "local", provider := .LOCAL, difficulty := 1
    cost_per_1m_input := mkRat 0 1, cost_per_1m_output := mkRat 0 1
    max_context := 32768, avg_latency_ms := 2000, quality_score := mkRat 6 10
    multimodal := false, supports_tools := true, notes := "Free local inference, variable quality" }

/-- The model registry (`registry.py`, `MODEL_REGISTRY`), an
insertion-ordered map modelled as an association list in source order. -/
def MODEL_REGISTRY : List (String × ModelCapability) :=
  [ ("claude-opus-4-20250514", claudeOpus4)
  , ("claude-sonnet-4-20250514", claudeSonnet4)
  , ("claude-haiku-3-5-20241022", claudeHaiku35)
  , ("anthropic/claude-3.5-sonnet", orClaude35Sonnet)
  , ("openai/gpt-4-turbo", orGpt4Turbo)
  , ("google/gemini-pro-1.5", orGeminiPro15)
  , ("anthropic/claude-3-haiku", orClaude3Haiku)
  , ("meta-llama/llama-3.1-70b-instruct", orLlama70b)
  , ("openai/gpt-4o-mini", orGpt4oMini)
  , ("google/gemini-flash-1.5", orGeminiFlash15)
  , ("meta-llama/llama-3.1-8b-instruct", orLlama8b)
  , ("qwen/qwen-2.5-72b-instruct", orQwen72b)
  , ("local", localModel) ]

/-- The list of registry values, in registry insertion order. -/
def registryModels : List ModelCapability := MODEL_REGISTRY.map Prod.snd

/-- From `registry.py`: `get_models_by_difficulty`. -/
def get_models_by_difficulty (difficulty : Nat) (provider : Option ProviderType) :
    List ModelCapability :=
  let models := registryModels.filter (fun m => decide (m.difficulty = difficulty))
  match provider with
  | some p => models.filter (fun m => decide (m.provider = p))
  | none => models

/-- Combined unit cost used as the sort key in `rank_models_by_cost`. -/
def unitCost (m : ModelCapability) : ℚ := m.cost_per_1m_input + m.cost_per_1m_output

/-- Comparison underlying `rank_models_by_cost`. -/
def costRel (a b : ModelCapability) : Prop := unitCost a ≤ unitCost b

instance : DecidableRel costRel :=
  fun a b => inferInstanceAs (Decidable (unitCost a ≤ unitCost b))

instance : IsTotal ModelCapability costRel :=
  ⟨fun a b => le_total (unitCost a) (unitCost b)⟩

instance : IsTrans ModelCapability costRel :=
  ⟨fun _ _ _ => le_trans⟩

/-- From `registry.py`: `rank_models_by_cost`. Python `sorted(models, key=...)` is a
stable sort ascending by the key; the output of a stable sort is uniquely
determined by the key and the input order, so it is modelled by
`List.insertionSort` (stable, and computable by the kernel). -/
def rank_models_by_cost (models : List ModelCapability) : List ModelCapability :=
  models.insertionSort costRel

/-- Budget ledger (`cost_tracker.py`, class `CostTracker`): entries are
(calendar day of the entry timestamp, amount). -/
structure CostTracker where
  daily_limit : ℚ
  costs : List (Nat × ℚ)
deriving DecidableEq

/-- Method `CostTracker._cleanup_old_costs`: drop every entry not dated today. -/
def cleanup_old_costs (today : Nat) (t : CostTracker) : CostTracker :=
  { t with costs := t.costs.filter (fun e => decide (e.1 = today)) }

/-- Method `CostTracker.add_cost`: append an entry timestamped now, then prune. -/
def add_cost (today : Nat) (amount : ℚ) (t : CostTracker) : CostTracker :=
  cleanup_old_costs today { t with costs := t.costs ++ [(today, amount)] }

/-- Method `CostTracker.get_today_total`: prune, then sum; returns the total and
the pruned tracker state (the Python method mutates `self._costs`). -/
def get_today_total (today : Nat) (t : CostTracker) : ℚ × CostTracker :=
  let t2 := cleanup_old_costs today t
  ((t2.costs.map Prod.snd).sum, t2)

/-- Method `CostTracker.get_remaining_budget`. -/
def get_remaining_budget (today : Nat) (t : CostTracker) : ℚ :=
  max 0 (t.daily_limit - (get_today_total today t).1)

/-- Method `CostTracker.is_over_budget`. -/
def is_over_budget (today : Nat) (t : CostTracker) : Bool :=
  decide ((get_today_total today t).1 ≥ t.daily_limit)

/-- Method `CostTracker.should_use_cheaper_model`. -/
def should_use_cheaper_model (today : Nat) (t : CostTracker) (threshold : ℚ) : Bool :=
  decide ((get_today_total today t).1 ≥ t.daily_limit * threshold)

/-- Router state (`router.py`, class `LLMRouter`): the set of registered
provider types (registration order) and the optional cost tracker. -/
structure LLMRouter where
  providers : List ProviderType
  cost_tracker : Option CostTracker
deriving DecidableEq

/-- The budget check in `complete` step 2: `self._cost_tracker and
self._cost_tracker.should_use_cheaper_model()` (default threshold 0.8). -/
def routerShouldDegrade (st : LLMRouter) (today : Nat) : Bool :=
  match st.cost_tracker with
  | none => false
  | some t => should_use_cheaper_model today t (mkRat 8 10)

/-- Step 1 of `complete`: `TASK_DIFFICULTY.get(task, 2) if task else 2`. -/
def baseDifficulty (task : Option TaskType) : Nat :=
  match task with
  | some t => TASK_DIFFICULTY t
  | none => 2

/-- Steps 1-2 of `complete`: difficulty after the budget downgrade. -/
def resolvedDifficulty (st : LLMRouter) (task : Option TaskType) (today : Nat) : Nat :=
  let d := baseDifficulty task
  if routerShouldDegrade st today = true ∧ 1 < d then max 1 (d - 1) else d

/-- Steps 3-4 of `complete`: models of a difficulty whose provider is registered. -/
def availableAt (st : LLMRouter) (d : Nat) : List ModelCapability :=
  (get_models_by_difficulty d none).filter (fun m => decide (m.provider ∈ st.providers))

/-- Step 4 of `complete`, the fallback pool: every registry model with a registered
provider, regardless of difficulty. -/
def fallbackModels (st : LLMRouter) : List ModelCapability :=
  registryModels.filter (fun m => decide (m.provider ∈ st.providers))

/-- Step 5 of `complete`: move the models of the preferred provider to the front. -/
def promotePreferred (preferred : Option ProviderType) (models : List ModelCapability) :
    List ModelCapability :=
  match preferred with
  | none => models
  | some p =>
      models.filter (fun m => decide (m.provider = p)) ++
        models.filter (fun m => decide (m.provider ≠ p))

/-- The external provider adapters: an oracle mapping (provider, per-attempt
config, task) to success or failure. -/
abbrev Backend : Type := ProviderType → LLMConfig → Option TaskType → Option LLMResponse

/-- Step 7 of `complete`: `config.model or model_cap.model_id` (Python `or`:
both `None` and the empty string fall back to the registry id). -/
def modelToUse (cfgModel : Option String) (m : ModelCapability) : String :=
  match cfgModel with
  | none => m.model_id
  | some s => if s = "" then m.model_id else s

/-- The `LLMConfig` the router constructs for one candidate attempt. -/
def attemptConfig (cfg : LLMConfig) (m : ModelCapability) : LLMConfig :=
  { model := some (modelToUse cfg.model m)
    max_tokens := cfg.max_tokens
    temperature := cfg.temperature
    system_prompt := cfg.system_prompt }

/-- Step 7 of `complete`: try each candidate in order, returning the first
successful candidate with its response. -/
def tryCandidates (bk : Backend) (cfg : LLMConfig) (task : Option TaskType) :
    List ModelCapability → Option (ModelCapability × LLMResponse)
  | [] => none
  | m :: rest =>
    match bk m.provider (attemptConfig cfg m) task with
    | some r => some (m, r)
    | none => tryCandidates bk cfg task rest

/-- The candidates of a trial list the loop never attempts: the suffix after
the first success (everything is attempted when every candidate fails). -/
def untried (bk : Backend) (cfg : LLMConfig) (task : Option TaskType) :
    List ModelCapability → List ModelCapability
  | [] => []
  | m :: rest =>
    match bk m.provider (attemptConfig cfg m) task with
    | some _ => rest
    | none => untried bk cfg task rest

/-- Steps 5-6 of `complete` on a non-empty tier: promote the preferred
provider, then rank the whole list by cost. -/
def trialList (st : LLMRouter) (preferred : Option ProviderType) (d : Nat) :
    List ModelCapability :=
  rank_models_by_cost (promotePreferred preferred (availableAt st d))

/-- Steps 4-6 of `complete` on an empty floor tier: rank the registry-wide
fallback pool, then promote and rank again. -/
def fallbackTrialList (st : LLMRouter) (preferred : Option ProviderType) :
    List ModelCapability :=
  rank_models_by_cost (promotePreferred preferred (rank_models_by_cost (fallbackModels st)))

/-- Routing outcome: Python returns an `LLMResponse` or raises one of the
two `RuntimeError`s. `outOfFuel` is the artefact of the fuel-indexed
embedding of the self-recursion and is proved unreachable. -/
inductive RouteResult where
  | success (chosen : ModelCapability) (response : LLMResponse)
  | noProviders
  | allFailed
  | outOfFuel
deriving DecidableEq

/-- Method `LLMRouter.complete`, fuel-indexed: the `fuel` argument bounds the
self-recursion depth (`complete` re-enters itself with `task=SIMPLE` and
`preferred=None` on an empty tier or on tier exhaustion). -/
def completeAux (bk : Backend) (cfg : LLMConfig) (today : Nat) :
    Nat → LLMRouter → Option ProviderType → Option TaskType → RouteResult
  | 0, _, _, _ => RouteResult.outOfFuel
  | fuel + 1, st, preferred, task =>
    if (availableAt st (resolvedDifficulty st task today)).isEmpty then
      if 1 < resolvedDifficulty st task today then
        completeAux bk cfg today fuel st none (some TaskType.SIMPLE)
      else if (fallbackModels st).isEmpty then RouteResult.noProviders
      else
        match tryCandidates bk cfg task (fallbackTrialList st preferred) with
        | some (m, r) => RouteResult.success m r
        | none => RouteResult.allFailed
    else
      match tryCandidates bk cfg task (trialList st preferred (resolvedDifficulty st task today)) with
      | some (m, r) => RouteResult.success m r
      | none =>
        if 1 < resolvedDifficulty st task today then
          completeAux bk cfg today fuel st none (some TaskType.SIMPLE)
        else RouteResult.allFailed

/-- Method `LLMRouter.complete` at fuel 2, which suffices (initial call plus the single
floor-tier re-entry), as proved by the termination theorem. -/
def complete (st : LLMRouter) (bk : Backend) (cfg : LLMConfig)
    (preferred : Option ProviderType) (task : Option TaskType) (today : Nat) : RouteResult :=
  completeAux bk cfg today 2 st preferred task

/-- The candidate list iterated by the invocation of `completeAux` that
produced the final outcome, paired with the task of that invocation. -/
def finalCandidates (bk : Backend) (cfg : LLMConfig) (today : Nat) :
    Nat → LLMRouter → Option ProviderType → Option TaskType →
      List ModelCapability × Option TaskType
  | 0, _, _, task => ([], task)
  | fuel + 1, st, preferred, task =>
    if (availableAt st (resolvedDifficulty st task today)).isEmpty then
      if 1 < resolvedDifficulty st task today then
        finalCandidates bk cfg today fuel st none (some TaskType.SIMPLE)
      else if (fallbackModels st).isEmpty then ([], task)
      else (fallbackTrialList st preferred, task)
    else
      match tryCandidates bk cfg task (trialList st preferred (resolvedDifficulty st task today)) with
      | some _ => (trialList st preferred (resolvedDifficulty st task today), task)
      | none =>
        if 1 < resolvedDifficulty st task today then
          finalCandidates bk cfg today fuel st none (some TaskType.SIMPLE)
        else (trialList st preferred (resolvedDifficulty st task today), task)

/-- First candidate a `complete` call proposes (head of the trial list of
the invocation that settles the call). -/
def firstProposed (st : LLMRouter) (bk : Backend) (cfg : LLMConfig)
    (preferred : Option ProviderType) (task : Option TaskType) (today : Nat) :
    Option ModelCapability :=
  (finalCandidates bk cfg today 2 st preferred task).1.head?


/-! ### Concrete fixtures used by counterexamples and witnesses -/

/-- A backend oracle on which every attempt succeeds with a fixed response. -/
def bkAll : Backend := fun _ _ _ =>
  some { content := "ok", model := "m", provider := .OPENROUTER
         input_tokens := 0, output_tokens := 0, cost_usd := mkRat 0 1 }

/-- The fixed response returned by `bkAll`. -/
def respW : LLMResponse :=
  { content := "ok", model := "m", provider := .OPENROUTER
    input_tokens := 0, output_tokens := 0, cost_usd := mkRat 0 1 }

/-- A backend oracle that succeeds only when the per-attempt config carries
the empty-string model id. -/
def bkEmptyOnly : Backend := fun _ c _ =>
  if c.model = some ("") then
    some { content := "ok", model := "m", provider := .OPENROUTER
           input_tokens := 0, output_tokens := 0, cost_usd := mkRat 0 1 }
  else none

/-- Default config as built by `complete_simple`: no explicit model. -/
def cfg0 : LLMConfig :=
  { model := none, max_tokens := 1024, temperature := mkRat 7 10, system_prompt := none }

/-- A config whose `model` is the empty string (non-`None`, yet falsy). -/
def cfgEmpty : LLMConfig :=
  { model := some (""), max_tokens := 1024, temperature := mkRat 7 10, system_prompt := none }

/-- Router with only the OpenRouter provider registered. -/
def stOR : LLMRouter := { providers := [.OPENROUTER], cost_tracker := none }

/-- Router with only the Claude provider registered. -/
def stClaude : LLMRouter := { providers := [.CLAUDE], cost_tracker := none }

/-- Router with the Claude and OpenRouter providers registered. -/
def stBoth : LLMRouter := { providers := [.CLAUDE, .OPENROUTER], cost_tracker := none }

/-- Router with no providers registered. -/
def stEmpty : LLMRouter := { providers := [], cost_tracker := none }

/-- Tracker at 9 of a 10-dollar daily limit: past the 80 percent threshold. -/
def trackerHot : CostTracker := { daily_limit := mkRat 10 1, costs := [(0, mkRat 9 1)] }

/-- Router under budget pressure (tracker past the degrade threshold). -/
def stHot : LLMRouter := { providers := [.CLAUDE, .OPENROUTER], cost_tracker := some trackerHot }

/-! ### Helper lemmas -/

/-- A floor-tier (`SIMPLE`) task always resolves to difficulty 1: the budget
downgrade only fires above difficulty 1. -/
theorem resolvedDifficulty_simple (st : LLMRouter) (today : Nat) :
    resolvedDifficulty st (some TaskType.SIMPLE) today = 1 := by
  simp [resolvedDifficulty, baseDifficulty, TASK_DIFFICULTY]

/-- At the floor tier the router never recurses, so fuel beyond 1 is unused. -/
theorem completeAux_simple_fuel (bk : Backend) (cfg : LLMConfig) (today : Nat)
    (fuel : Nat) (st : LLMRouter) (preferred : Option ProviderType) :
    completeAux bk cfg today (fuel + 1) st preferred (some TaskType.SIMPLE) =
      completeAux bk cfg today 1 st preferred (some TaskType.SIMPLE) := by
  simp [completeAux, resolvedDifficulty_simple]

/-- Ranked lists are sorted by unit cost. -/
theorem rank_pairwise (l : List ModelCapability) :
    (rank_models_by_cost l).Pairwise costRel :=
  List.sorted_insertionSort costRel l

/-- If the trial sequence over a cost-sorted list succeeds, the chosen
candidate has a unit cost bounding every candidate never attempted. -/
theorem tryCandidates_untried_le (bk : Backend) (cfg : LLMConfig) (task : Option TaskType) :
    ∀ (l : List ModelCapability), l.Pairwise costRel →
      ∀ (m : ModelCapability) (r : LLMResponse), tryCandidates bk cfg task l = some (m, r) →
      ∀ c ∈ untried bk cfg task l, unitCost m ≤ unitCost c := by
  intro l
  induction l with
  | nil => intro _ m r h; simp [tryCandidates] at h
  | cons x xs ih =>
    intro hp m r h c hc
    cases hbk : bk x.provider (attemptConfig cfg x) task with
    | some r0 =>
      simp only [tryCandidates, hbk] at h
      simp only [untried, hbk] at hc
      obtain ⟨hm, hr⟩ := Option.some.inj h |> Prod.mk.inj
      subst hm
      exact List.rel_of_pairwise_cons hp hc
    | none =>
      simp only [tryCandidates, hbk] at h
      simp only [untried, hbk] at hc
      exact ih (List.Pairwise.of_cons hp) m r h c hc

/-- Every final candidate list is sorted ascending by unit cost. -/
theorem finalCandidates_pairwise (bk : Backend) (cfg : LLMConfig) (today : Nat) :
    ∀ (fuel : Nat) (st : LLMRouter) (preferred : Option ProviderType) (task : Option TaskType),
      ((finalCandidates bk cfg today fuel st preferred task).1).Pairwise costRel := by
  intro fuel
  induction fuel with
  | zero => intro st preferred task; simp [finalCandidates]
  | succ n ih =>
    intro st preferred task
    simp only [finalCandidates]
    split
    · split
      · exact ih st none (some TaskType.SIMPLE)
      · split
        · simp
        · exact rank_pairwise _
    · split
      · exact rank_pairwise _
      · split
        · exact ih st none (some TaskType.SIMPLE)
        · exact rank_pairwise _

/-- A successful `completeAux` outcome is the first success of the trial
sequence over its final candidate list. -/
theorem completeAux_success_tryCandidates (bk : Backend) (cfg : LLMConfig) (today : Nat) :
    ∀ (fuel : Nat) (st : LLMRouter) (preferred : Option ProviderType) (task : Option TaskType)
      (m : ModelCapability) (r : LLMResponse),
      completeAux bk cfg today fuel st preferred task = RouteResult.success m r →
      tryCandidates bk cfg (finalCandidates bk cfg today fuel st preferred task).2
          (finalCandidates bk cfg today fuel st preferred task).1 = some (m, r) := by
  intro fuel
  induction fuel with
  | zero => intro st preferred task m r h; simp [completeAux] at h
  | succ n ih =>
    intro st preferred task m r h
    simp only [completeAux] at h
    simp only [finalCandidates]
    split at h
    · rename_i hEmpty
      rw [if_pos hEmpty]
      split at h
      · rename_i hGt
        rw [if_pos hGt]
        exact ih st none (some TaskType.SIMPLE) m r h
      · rename_i hGt
        rw [if_neg hGt]
        split at h
        · exact absurd h (by simp)
        · rename_i hFb
          rw [if_neg hFb]
          cases htc : tryCandidates bk cfg task (fallbackTrialList st preferred) with
          | some p =>
            obtain ⟨a, b⟩ := p
            rw [htc] at h
            simp only at h
            cases h
            simp [htc]
          | none => rw [htc] at h; simp at h
    · rename_i hEmpty
      rw [if_neg hEmpty]
      cases htc : tryCandidates bk cfg task
          (trialList st preferred (resolvedDifficulty st task today)) with
      | some p =>
        obtain ⟨a, b⟩ := p
        rw [htc] at h
        simp only at h
        cases h
        simp [htc]
      | none =>
        rw [htc] at h
        simp only at h
        simp only [htc]
        split at h
        · rename_i hGt
          rw [if_pos hGt]
          exact ih st none (some TaskType.SIMPLE) m r h
        · simp at h

theorem completeAux_one_simple_ne (bk : Backend) (cfg : LLMConfig) (today : Nat)
    (st : LLMRouter) (preferred : Option ProviderType) :
    completeAux bk cfg today 1 st preferred (some TaskType.SIMPLE) ≠ RouteResult.outOfFuel := by
  simp only [completeAux, resolvedDifficulty_simple]
  norm_num
  split
  · split
    · simp
    · split <;> simp
  · split <;> simp

theorem completeAux_fuel_ge_two (bk : Backend) (cfg : LLMConfig) (today : Nat)
    (fuel : Nat) (st : LLMRouter) (preferred : Option ProviderType) (task : Option TaskType) :
    completeAux bk cfg today (fuel + 2) st preferred task =
      completeAux bk cfg today 2 st preferred task := by
  show completeAux bk cfg today (fuel + 1 + 1) st preferred task =
      completeAux bk cfg today (1 + 1) st preferred task
  simp only [completeAux]
  simp [resolvedDifficulty_simple]

theorem complete_ne_outOfFuel (st : LLMRouter) (bk : Backend) (cfg : LLMConfig)
    (preferred : Option ProviderType) (task : Option TaskType) (today : Nat) :
    complete st bk cfg preferred task today ≠ RouteResult.outOfFuel := by
  show completeAux bk cfg today (1 + 1) st preferred task ≠ RouteResult.outOfFuel
  simp only [completeAux]
  split
  · split
    · exact completeAux_one_simple_ne bk cfg today st none
    · split
      · simp
      · split <;> simp
  · split
    · simp
    · split
      · exact completeAux_one_simple_ne bk cfg today st none
      · simp

/-- Router with only the local provider registered. -/
def stLocal : LLMRouter := { providers := [.LOCAL], cost_tracker := none }

/-! ### Claim theorems -/

/-- C7: the tier-fallback self-recursion of `complete` has depth at most 1:
fuel 2 (initial call plus one floor-tier re-entry) is enough for every input,
every re-entry resolves to difficulty 1, and the call never runs out of
fuel, so routing always terminates given that each backend call returns. -/
theorem route_fallback_depth_at_most_one :
    ∀ (fuel : Nat) (st : LLMRouter) (bk : Backend) (cfg : LLMConfig)
      (preferred : Option ProviderType) (task : Option TaskType) (today : Nat),
      completeAux bk cfg today (fuel + 2) st preferred task =
        complete st bk cfg preferred task today ∧
      resolvedDifficulty st (some TaskType.SIMPLE) today = 1 ∧
      complete st bk cfg preferred task today ≠ RouteResult.outOfFuel := by
  intro fuel st bk cfg preferred task today
  exact ⟨completeAux_fuel_ge_two bk cfg today fuel st preferred task,
    resolvedDifficulty_simple st today,
    complete_ne_outOfFuel st bk cfg preferred task today⟩

/-- C3: under budget pressure the difficulty used for candidate gathering
(`resolvedDifficulty`, the argument `completeAux` passes to `availableAt`)
is exactly the original difficulty minus 1; a tier-3 task gathers at
exactly tier 2, never tier 1. -/
theorem budget_degrade_single_step (st : LLMRouter) (t : TaskType) (today : Nat)
    (h1 : routerShouldDegrade st today = true) (h2 : 1 < TASK_DIFFICULTY t) :
    resolvedDifficulty st (some t) today = TASK_DIFFICULTY t - 1 ∧
    (TASK_DIFFICULTY t = 3 → resolvedDifficulty st (some t) today = 2) := by
  have hmain : resolvedDifficulty st (some t) today = TASK_DIFFICULTY t - 1 := by
    simp only [resolvedDifficulty, baseDifficulty]
    rw [if_pos ⟨h1, h2⟩]
    omega
  exact ⟨hmain, fun h3 => by rw [hmain, h3]⟩

/-- C3 witness: a router at 9 of a 10-dollar limit degrades a chat task
(difficulty 3) to difficulty 2. -/
theorem budget_degrade_single_step_witness :
    resolvedDifficulty stHot (some TaskType.CHAT) 0 = TASK_DIFFICULTY TaskType.CHAT - 1 ∧
    (TASK_DIFFICULTY TaskType.CHAT = 3 →
      resolvedDifficulty stHot (some TaskType.CHAT) 0 = 2) :=
  budget_degrade_single_step stHot TaskType.CHAT 0 (by decide) (by decide)

/-- C4: with zero available candidates at a resolved tier of 2 or 3, the
call becomes the single floor re-entry (`task=SIMPLE`, `preferred=None`),
and that re-entry resolves to difficulty 1 — never an intermediate tier. -/
theorem empty_tier_jumps_to_floor (st : LLMRouter) (bk : Backend) (cfg : LLMConfig)
    (preferred : Option ProviderType) (task : Option TaskType) (today : Nat)
    (h2 : resolvedDifficulty st task today = 2 ∨ resolvedDifficulty st task today = 3)
    (h3 : availableAt st (resolvedDifficulty st task today) = []) :
    complete st bk cfg preferred task today =
      completeAux bk cfg today 1 st none (some TaskType.SIMPLE) ∧
    resolvedDifficulty st (some TaskType.SIMPLE) today = 1 := by
  constructor
  · show completeAux bk cfg today (1 + 1) st preferred task = _
    have hGt : 1 < resolvedDifficulty st task today := by rcases h2 with h | h <;> omega
    simp only [completeAux]
    simp [h3, hGt, resolvedDifficulty_simple]
  · exact resolvedDifficulty_simple st today

/-- C4 witness: only the local provider is registered, so tier 2 is empty
and a fact-extraction request falls directly to the floor re-entry. -/
theorem empty_tier_jumps_to_floor_witness :
    complete stLocal bkAll cfg0 none (some TaskType.FACT_EXTRACTION) 0 =
      completeAux bkAll cfg0 0 1 stLocal none (some TaskType.SIMPLE) ∧
    resolvedDifficulty stLocal (some TaskType.SIMPLE) 0 = 1 :=
  empty_tier_jumps_to_floor stLocal bkAll cfg0 none (some TaskType.FACT_EXTRACTION) 0
    (Or.inl (by decide)) (by decide)

/-- C8: a router with no providers registered always fails with the
distinct no-providers fatal error, never the all-candidates-failed one. -/
theorem no_providers_fatal (st : LLMRouter) (bk : Backend) (cfg : LLMConfig)
    (preferred : Option ProviderType) (task : Option TaskType) (today : Nat)
    (h : st.providers = []) :
    complete st bk cfg preferred task today = RouteResult.noProviders := by
  have hav : ∀ d, availableAt st d = [] := by
    intro d; simp [availableAt, h]
  have hfb : fallbackModels st = [] := by simp [fallbackModels, h]
  show completeAux bk cfg today (1 + 1) st preferred task = _
  simp only [completeAux]
  simp [hav, hfb, resolvedDifficulty_simple]

/-- C8 witness: the empty router fails with the no-providers error on a
chat request even though the backend oracle would accept anything. -/
theorem no_providers_fatal_witness :
    complete stEmpty bkAll cfg0 none (some TaskType.CHAT) 0 = RouteResult.noProviders :=
  no_providers_fatal stEmpty bkAll cfg0 none (some TaskType.CHAT) 0 rfl

/-- C6: `get_today_total` sums exactly the entries dated today; the pruned
tracker state it returns keeps only the entries dated today; and an entry dated on
any other day (for example back-dated to yesterday) does not contribute to
the total. -/
theorem ledger_date_scoping :
    ∀ (today : Nat) (lim : ℚ) (costs : List (Nat × ℚ)),
      (get_today_total today ⟨lim, costs⟩).1 =
        ((costs.filter (fun e => decide (e.1 = today))).map Prod.snd).sum ∧
      (get_today_total today ⟨lim, costs⟩).2.costs =
        costs.filter (fun e => decide (e.1 = today)) ∧
      ∀ (pre post : List (Nat × ℚ)) (d : Nat) (a : ℚ),
        costs = pre ++ (d, a) :: post → d ≠ today →
        (get_today_total today ⟨lim, costs⟩).1 =
          (get_today_total today ⟨lim, pre ++ post⟩).1 := by
  intro today lim costs
  refine ⟨rfl, rfl, ?_⟩
  intro pre post d a hc hd
  subst hc
  simp [get_today_total, cleanup_old_costs, List.filter_append, List.filter_cons, hd]

/-- C6 witness: a 7-dollar entry back-dated to day 4 is excluded from day
the day-5 total. -/
theorem ledger_date_scoping_witness :
    (get_today_total 5 ⟨mkRat 10 1, [(5, mkRat 2 1), (4, mkRat 7 1)]⟩).1 =
      (get_today_total 5 ⟨mkRat 10 1, [(5, mkRat 2 1)]⟩).1 :=
  (ledger_date_scoping 5 (mkRat 10 1) [(5, mkRat 2 1), (4, mkRat 7 1)]).2.2
    [(5, mkRat 2 1)] [] 4 (mkRat 7 1) rfl (by decide)

/-- C5: a successful `complete` call is the first success of the trial
sequence over its (cost-sorted) final candidate list, and the chosen
candidate has unit cost at most the unit cost of every candidate of that
list that was never attempted. -/
theorem chosen_cost_le_untried (st : LLMRouter) (bk : Backend) (cfg : LLMConfig)
    (preferred : Option ProviderType) (task : Option TaskType) (today : Nat)
    (m : ModelCapability) (r : LLMResponse)
    (h : complete st bk cfg preferred task today = RouteResult.success m r) :
    tryCandidates bk cfg (finalCandidates bk cfg today 2 st preferred task).2
        (finalCandidates bk cfg today 2 st preferred task).1 = some (m, r) ∧
    ∀ c ∈ untried bk cfg (finalCandidates bk cfg today 2 st preferred task).2
        (finalCandidates bk cfg today 2 st preferred task).1,
      unitCost m ≤ unitCost c := by
  have h1 := completeAux_success_tryCandidates bk cfg today 2 st preferred task m r h
  exact ⟨h1, tryCandidates_untried_le bk cfg _ _
    (finalCandidates_pairwise bk cfg today 2 st preferred task) m r h1⟩

/-- C5 witness: with only OpenRouter registered and an always-succeeding
backend, the cheapest difficulty-1 model is chosen and its cost bounds the
three untried candidates. -/
theorem chosen_cost_le_untried_witness :
    tryCandidates bkAll cfg0 (finalCandidates bkAll cfg0 0 2 stOR none (some TaskType.SIMPLE)).2
        (finalCandidates bkAll cfg0 0 2 stOR none (some TaskType.SIMPLE)).1 =
      some (orLlama8b, respW) ∧
    ∀ c ∈ untried bkAll cfg0 (finalCandidates bkAll cfg0 0 2 stOR none (some TaskType.SIMPLE)).2
        (finalCandidates bkAll cfg0 0 2 stOR none (some TaskType.SIMPLE)).1,
      unitCost orLlama8b ≤ unitCost c :=
  chosen_cost_le_untried stOR bkAll cfg0 none (some TaskType.SIMPLE) 0 orLlama8b respW
    (by decide)

/-- C9: routing is deterministic — equal router state, backend, config,
preference, task and day yield the same first proposed candidate — and
`rank_models_by_cost` breaks cost ties by preserving input order (it is a
stable sort). -/
theorem route_deterministic :
    (∀ (st st2 : LLMRouter) (bk bk2 : Backend) (cfg cfg2 : LLMConfig)
       (preferred preferred2 : Option ProviderType) (task task2 : Option TaskType)
       (today today2 : Nat),
       st = st2 → bk = bk2 → cfg = cfg2 → preferred = preferred2 → task = task2 →
       today = today2 →
       firstProposed st bk cfg preferred task today =
         firstProposed st2 bk2 cfg2 preferred2 task2 today2) ∧
    (∀ (l : List ModelCapability) (a b : ModelCapability),
       unitCost a = unitCost b → List.Sublist [a, b] l →
       List.Sublist [a, b] (rank_models_by_cost l)) := by
  constructor
  · intro st st2 bk bk2 cfg cfg2 p p2 t t2 d d2 h1 h2 h3 h4 h5 h6
    subst h1; subst h2; subst h3; subst h4; subst h5; subst h6; rfl
  · intro l a b hc hs
    exact List.pair_sublist_insertionSort (le_of_eq hc) hs

/-- C9 witness: gpt-4o-mini and qwen-2.5-72b have the same unit cost
(0.75) and keep their registry order through the ranking. -/
theorem route_deterministic_witness :
    firstProposed stOR bkAll cfg0 none (some TaskType.SIMPLE) 0 =
      firstProposed stOR bkAll cfg0 none (some TaskType.SIMPLE) 0 ∧
    List.Sublist [orGpt4oMini, orQwen72b] (rank_models_by_cost [orGpt4oMini, orQwen72b]) :=
  ⟨route_deterministic.1 stOR stOR bkAll bkAll cfg0 cfg0 none none (some TaskType.SIMPLE)
      (some TaskType.SIMPLE) 0 0 rfl rfl rfl rfl rfl rfl,
    route_deterministic.2 [orGpt4oMini, orQwen72b] orGpt4oMini orQwen72b (by decide)
      (List.Sublist.refl _)⟩

/-- C1 counterexample: with only the Claude provider registered, a request
resolves to tier 1, the tier-1 candidate set is empty, and yet the call
does not fail with the no-providers error — it succeeds on a registry-wide
fallback candidate (claude-haiku, difficulty 2), refuting the claim that
an empty tier 1 is fatal without attempting any model. -/
theorem floor_tier_empty_not_fatal_cex :
    resolvedDifficulty stClaude (some TaskType.SIMPLE) 0 = 1 ∧
    availableAt stClaude 1 = [] ∧
    complete stClaude bkAll cfg0 none (some TaskType.SIMPLE) 0 =
      RouteResult.success claudeHaiku35 respW ∧
    complete stClaude bkAll cfg0 none (some TaskType.SIMPLE) 0 ≠
      RouteResult.noProviders := by
  refine ⟨by decide, by decide, by decide, by decide⟩

/-- C1 amended: at a resolved tier of 1 with no tier-1 candidate, the call
is fatal with the no-providers error exactly when no registry model at any
difficulty has a registered provider; otherwise it attempts the
cost-ranked registry-wide fallback candidates. -/
theorem floor_tier_empty_registry_fallback (st : LLMRouter) (bk : Backend)
    (cfg : LLMConfig) (preferred : Option ProviderType) (task : Option TaskType)
    (today : Nat)
    (h1 : resolvedDifficulty st task today = 1)
    (h2 : availableAt st 1 = []) :
    (fallbackModels st = [] →
      complete st bk cfg preferred task today = RouteResult.noProviders) ∧
    (fallbackModels st ≠ [] →
      complete st bk cfg preferred task today =
        match tryCandidates bk cfg task (fallbackTrialList st preferred) with
        | some (m, r) => RouteResult.success m r
        | none => RouteResult.allFailed) := by
  constructor <;> intro hfb <;>
    · show completeAux bk cfg today (1 + 1) st preferred task = _
      simp only [completeAux]
      simp [h1, h2, hfb]

/-- C1 witness: the Claude-only router (tier 1 empty, fallback non-empty)
runs the trial sequence over the ranked registry-wide fallback. -/
theorem floor_tier_empty_registry_fallback_witness :
    complete stClaude bkAll cfg0 none (some TaskType.SIMPLE) 0 =
      match tryCandidates bkAll cfg0 (some TaskType.SIMPLE)
          (fallbackTrialList stClaude none) with
      | some (m, r) => RouteResult.success m r
      | none => RouteResult.allFailed :=
  (floor_tier_empty_registry_fallback stClaude bkAll cfg0 none (some TaskType.SIMPLE) 0
    (by decide) (by decide)).2 (by decide)

/-- C2 counterexample: with Claude preferred and both providers registered,
claude-haiku-3-5 is an available tier-2 candidate of the preferred
provider, yet the first candidate of the trial list — and the one a fully
succeeding run attempts and returns — is llama-3.1-70b, a non-preferred
model: the cost ranking re-sorts the whole list, so the promoted candidate
does not stay at position 0. -/
theorem preferred_not_pinned_cex :
    claudeHaiku35 ∈ availableAt stBoth 2 ∧
    claudeHaiku35.provider = ProviderType.CLAUDE ∧
    (trialList stBoth (some ProviderType.CLAUDE) 2).head? = some orLlama70b ∧
    orLlama70b.provider ≠ ProviderType.CLAUDE ∧
    complete stBoth bkAll cfg0 (some ProviderType.CLAUDE) (some TaskType.FACT_EXTRACTION) 0 =
      RouteResult.success orLlama70b respW := by
  refine ⟨by decide, rfl, by decide, by decide, by decide⟩

/-- C2 amended: the preference promotion survives the cost ranking only as
a tie-break — a preferred-provider candidate precedes every non-preferred
candidate whose unit cost is greater than or equal to its own (and hence
leads the list only if it is among the cheapest). -/
theorem preferred_breaks_cost_ties (p : ProviderType) (st : LLMRouter) (d : Nat)
    (a b : ModelCapability) (ha : a ∈ availableAt st d) (hb : b ∈ availableAt st d)
    (hpa : a.provider = p) (hpb : b.provider ≠ p) (hc : unitCost a ≤ unitCost b) :
    List.Sublist [a, b] (trialList st (some p) d) := by
  have ha2 : a ∈ (availableAt st d).filter (fun m => decide (m.provider = p)) :=
    List.mem_filter.mpr ⟨ha, by simp [hpa]⟩
  have hb2 : b ∈ (availableAt st d).filter (fun m => decide (m.provider ≠ p)) :=
    List.mem_filter.mpr ⟨hb, by simp [hpb]⟩
  have hsub : List.Sublist [a, b] (promotePreferred (some p) (availableAt st d)) :=
    List.Sublist.append (List.singleton_sublist.mpr ha2) (List.singleton_sublist.mpr hb2)
  exact List.pair_sublist_insertionSort hc hsub

/-- C2 witness: claude-haiku-3-5 (unit cost 4.8) precedes gemini-pro-1.5
(unit cost 6.25) in the tier-2 trial list when Claude is preferred. -/
theorem preferred_breaks_cost_ties_witness :
    List.Sublist [claudeHaiku35, orGeminiPro15]
      (trialList stBoth (some ProviderType.CLAUDE) 2) :=
  preferred_breaks_cost_ties ProviderType.CLAUDE stBoth 2 claudeHaiku35 orGeminiPro15
    (by decide) (by decide) rfl (by decide) (by decide)

/-- C10 counterexample: `config.model = ""` is non-`None`, yet the
per-attempt config carries the model id of the registry candidate (Python `or`
treats the empty string as falsy), so a backend that accepts exactly the
empty-string model id sees every attempt fail. -/
theorem empty_model_string_cex :
    cfgEmpty.model = some ("") ∧
    (attemptConfig cfgEmpty orLlama8b).model =
      some ("meta-llama/llama-3.1-8b-instruct") ∧
    complete stOR bkEmptyOnly cfgEmpty none (some TaskType.SIMPLE) 0 =
      RouteResult.allFailed := by
  refine ⟨rfl, rfl, by decide⟩

/-- C10 amended: when `config.model` is a non-empty string, every candidate
attempt invokes the provider with exactly that string as the model id; the
id of the registry candidate is used only when `config.model` is `None` or the
empty string. -/
theorem config_model_overrides_when_nonempty (cfg : LLMConfig) (s : String)
    (hs : s ≠ "") (hm : cfg.model = some s) :
    ∀ m : ModelCapability,
      (attemptConfig cfg m).model = some s ∧ modelToUse cfg.model m = s := by
  intro m
  have h : modelToUse cfg.model m = s := by simp [modelToUse, hm, hs]
  exact ⟨by simp [attemptConfig, h], h⟩

/-- C10 witness: a config pinned to the non-empty id is forwarded verbatim
to the attempt on llama-3.1-8b. -/
theorem config_model_overrides_when_nonempty_witness :
    (attemptConfig
        { model := some ("openai/gpt-4o"), max_tokens := 64,
          temperature := mkRat 0 1, system_prompt := none } orLlama8b).model =
      some ("openai/gpt-4o") ∧
    modelToUse (some ("openai/gpt-4o")) orLlama8b = "openai/gpt-4o" :=
  config_model_overrides_when_nonempty
    { model := some ("openai/gpt-4o"), max_tokens := 64,
      temperature := mkRat 0 1, system_prompt := none }
    "openai/gpt-4o" (by decide) rfl orLlama8b

end Sentinel
